import Mathlib

/-!
Verification of the runtime-supervisor core of ax-fabric
(`src-tauri/src/core/state.rs`): service handles, registries,
cancellation, and shutdown coordination, shallowly embedded in Lean.
-/

namespace AxFabric

/-- Opaque tool descriptor from the rmcp collaborator, abstracted as a code. -/
structure Tool where
  code : Nat
deriving DecidableEq, Repr

/-- Opaque call parameter from the rmcp collaborator. -/
structure CallToolRequestParam where
  code : Nat
deriving DecidableEq, Repr

/-- Opaque call result from the rmcp collaborator. -/
structure CallToolResult where
  code : Nat
deriving DecidableEq, Repr

/-- Opaque service error surfaced by the remote connection. -/
structure ServiceError where
  code : Nat
deriving DecidableEq, Repr

/-- A live connection object to one external tool service, as consumed from the
rmcp collaborator: it exposes a tool listing and a tool-invocation call, with
the same signature regardless of initialization-handshake state. -/
structure RunningService where
  list_all_tools : Except ServiceError (List Tool)
  call_tool : CallToolRequestParam → Except ServiceError CallToolResult

/-- `RunningServiceEnum` from state.rs: a handle wrapping a connection,
distinguishing whether an initialization handshake has completed. -/
inductive RunningServiceEnum where
  | NoInit (s : RunningService)
  | WithInit (s : RunningService)

/-- The initialization-variant tag of a handle. -/
inductive VariantTag where
  | noInit
  | withInit
deriving DecidableEq, Repr

/-- Which variant a handle is. -/
def RunningServiceEnum.tag : RunningServiceEnum → VariantTag
  | .NoInit _ => .noInit
  | .WithInit _ => .withInit

/-- `RunningServiceEnum::list_all_tools` from state.rs: dispatch to the wrapped
connection regardless of variant. -/
def RunningServiceEnum.list_all_tools : RunningServiceEnum → Except ServiceError (List Tool)
  | .NoInit s => s.list_all_tools
  | .WithInit s => s.list_all_tools

/-- `RunningServiceEnum::call_tool` from state.rs: dispatch to the wrapped
connection regardless of variant. -/
def RunningServiceEnum.call_tool :
    RunningServiceEnum → CallToolRequestParam → Except ServiceError CallToolResult
  | .NoInit s, p => s.call_tool p
  | .WithInit s, p => s.call_tool p

/-- State-passing form of `list_all_tools`: the Rust method takes `&self`, so
the handle after the call is the handle before the call. -/
def RunningServiceEnum.list_all_tools_step (h : RunningServiceEnum) :
    RunningServiceEnum × Except ServiceError (List Tool) :=
  (h, h.list_all_tools)

/-- State-passing form of `call_tool`: the Rust method takes `&self`, so the
handle after the call is the handle before the call. -/
def RunningServiceEnum.call_tool_step (h : RunningServiceEnum)
    (p : CallToolRequestParam) : RunningServiceEnum × Except ServiceError CallToolResult :=
  (h, h.call_tool p)

/-- The error taxonomy of the supervisor core (spec section 7). -/
inductive McpError where
  | NotFound (name : String)
  | AlreadyRunning (name : String)
  | Cancelled
  | Service (name : String) (e : ServiceError)
  | ShutdownInProgress
deriving DecidableEq, Repr

/-- Association-list lookup keyed by string, the map backing each registry. -/
def lookupAssoc {β : Type} : List (String × β) → String → Option β
  | [], _ => none
  | (k, v) :: rest, key => if k = key then some v else lookupAssoc rest key

/-- Remove every entry with the given key from an association list. -/
def eraseAssoc {β : Type} : List (String × β) → String → List (String × β)
  | [], _ => []
  | (k, v) :: rest, key =>
      if k = key then eraseAssoc rest key else (k, v) :: eraseAssoc rest key

/-- Apply a function to the value stored under the given key. -/
def mapAssoc {β : Type} (f : β → β) : List (String × β) → String → List (String × β)
  | [], _ => []
  | (k, v) :: rest, key =>
      if k = key then (k, f v) :: mapAssoc f rest key else (k, v) :: mapAssoc f rest key

/-- The contents of `mcp_servers` (type `SharedMcpServers` in state.rs):
a mapping from service name to handle. -/
def McpServerMap : Type := List (String × RunningServiceEnum)

/-- Modelled from the spec: `register(name, handle)` of the ServiceRegistry.
Missing from src: only the `SharedMcpServers` type is declared in state.rs.
Inserts; fails with `AlreadyRunning` if the name is present, mutating nothing. -/
def register (servers : McpServerMap) (name : String) (h : RunningServiceEnum) :
    McpServerMap × Except McpError Unit :=
  match lookupAssoc servers name with
  | some _ => (servers, .error (.AlreadyRunning name))
  | none => ((name, h) :: servers, .ok ())

/-- Modelled from the spec: the name-indexed dispatch layer `list_tools(name)`.
Missing from src: the command layer that looks up the handle by name. Looks up,
dispatches to whichever variant the handle is, and propagates the underlying
service error unchanged, tagged with the originating service name. -/
def list_tools (servers : McpServerMap) (name : String) :
    Except McpError (List Tool) :=
  match lookupAssoc servers name with
  | none => .error (.NotFound name)
  | some h =>
      match h.list_all_tools with
      | .ok ts => .ok ts
      | .error e => .error (.Service name e)

/-- Modelled from the spec: the name-indexed dispatch layer `call_tool(name,
params)`. Missing from src: the command layer that looks up the handle by name.
Looks up, dispatches to whichever variant the handle is, and propagates the
underlying service error unchanged, tagged with the originating service name. -/
def call_tool_named (servers : McpServerMap) (name : String)
    (p : CallToolRequestParam) : Except McpError CallToolResult :=
  match lookupAssoc servers name with
  | none => .error (.NotFound name)
  | some h =>
      match h.call_tool p with
      | .ok r => .ok r
      | .error e => .error (.Service name e)

/-- A one-shot cancellation signal (`oneshot::Sender<()>` in state.rs),
observed through whether it has been fired. -/
structure CancellationSignal where
  fired : Bool
deriving DecidableEq, Repr

/-- Modelled from the spec: firing a one-shot cancellation signal. Firing an
already-fired signal is a no-op, not an error. -/
def fireSignal (_s : CancellationSignal) : CancellationSignal :=
  { fired := true }

/-- The contents of `tool_call_cancellations` in state.rs: a mapping from
in-flight call identifier to its one-shot cancellation signal. -/
structure CancellationRegistry where
  entries : List (String × CancellationSignal)
deriving DecidableEq, Repr

/-- Modelled from the spec: `cancel(call_id)`. Missing from src: only the
`tool_call_cancellations` field type is declared in state.rs. Fails with
`NotFound` when no entry exists, leaving the registry untouched; otherwise
fires the entry's signal. -/
def cancel (reg : CancellationRegistry) (callId : String) :
    CancellationRegistry × Except McpError Unit :=
  match lookupAssoc reg.entries callId with
  | none => (reg, .error (.NotFound callId))
  | some _ => ({ entries := mapAssoc fireSignal reg.entries callId }, .ok ())

/-- How the race inside a cancellable call resolves: the remote call returns a
result or an error, the cancellation signal fires first, or a caller-supplied
timeout (same mechanism as cancellation) fires first. -/
inductive CallOutcome where
  | success (r : CallToolResult)
  | failure (e : ServiceError)
  | cancelled
  | timeout
deriving DecidableEq, Repr

/-- The observable registry states and result of one cancellable call:
the registry while the call is in flight, the registry after the call's exit
path ran, and the value returned to the caller. -/
structure CancellableRun where
  inFlight : CancellationRegistry
  final : CancellationRegistry
  result : Except McpError CallToolResult
deriving Repr

/-- Modelled from the spec: `call_tool_cancellable(name, params, call_id)`.
Missing from src: only the `tool_call_cancellations` field type is declared in
state.rs. Registers a fresh cancellation entry keyed by `call_id` before
dispatch, races the underlying call against the cancellation signal, and on
whichever exit path resolves first removes the `call_id` entry. The race's
resolution is an explicit parameter. -/
def call_tool_cancellable (reg : CancellationRegistry) (name : String)
    (callId : String) (outcome : CallOutcome) : CancellableRun :=
  let inFlight : CancellationRegistry := ⟨(callId, ⟨false⟩) :: reg.entries⟩
  let final : CancellationRegistry := ⟨eraseAssoc inFlight.entries callId⟩
  let result : Except McpError CallToolResult :=
    match outcome with
    | .success r => .ok r
    | .failure e => .error (.Service name e)
    | .cancelled => .error .Cancelled
    | .timeout => .error .Cancelled
  ⟨inFlight, final, result⟩

/-- The ShutdownCoordinator's guarded state: the `mcp_shutdown_in_progress`
flag of state.rs plus a count of how many times teardown has executed. -/
structure ShutdownState where
  flag : Bool
  teardownCount : Nat
deriving DecidableEq, Repr

/-- Modelled from the spec: one trigger of the ShutdownCoordinator. Missing
from src: only the `mcp_shutdown_in_progress` field type is declared in
state.rs. Under the flag's lock: a caller observing `true` no-ops and returns
successfully; the first caller observing `false` sets the flag and runs the
teardown steps once. The returned Bool is the caller's success. -/
def triggerShutdown (s : ShutdownState) : ShutdownState × Bool :=
  if s.flag then (s, true)
  else ({ flag := true, teardownCount := s.teardownCount + 1 }, true)

/-- N triggers of the ShutdownCoordinator in sequence: the lock serializes
concurrent callers, so any interleaving is some sequential order. -/
def triggerN (s : ShutdownState) : Nat → ShutdownState × List Bool
  | 0 => (s, [])
  | n + 1 =>
      let (s1, ok) := triggerShutdown s
      let (s2, oks) := triggerN s1 n
      (s2, ok :: oks)

/-- The slice of `AppState` (state.rs) that shutdown touches: the service
registry, the cancellation registry, the process-id table, and the
shutdown flag. -/
structure AppStateM where
  mcp_servers : McpServerMap
  tool_call_cancellations : List (String × CancellationSignal)
  mcp_server_pids : List (String × Nat)
  mcp_shutdown_in_progress : Bool

/-- Modelled from the spec: the full shutdown sequence. Missing from src: only
the `AppState` field types are declared in state.rs. If teardown has already
started it no-ops; otherwise it sets the flag, tears everything down, and
clears all maps. -/
def shutdown (st : AppStateM) : AppStateM :=
  if st.mcp_shutdown_in_progress then st
  else
    { mcp_servers := []
      tool_call_cancellations := []
      mcp_server_pids := []
      mcp_shutdown_in_progress := true }

/-- Modelled from the spec: registration at the AppState level. Missing from
src: the command layer. New registrations are refused with
`ShutdownInProgress` once teardown has started. -/
def registerGuarded (st : AppStateM) (name : String) (h : RunningServiceEnum) :
    AppStateM × Except McpError Unit :=
  if st.mcp_shutdown_in_progress then (st, .error .ShutdownInProgress)
  else
    let (m, r) := register st.mcp_servers name h
    ({ st with mcp_servers := m }, r)

/-- Modelled from the spec: tool invocation at the AppState level. Missing
from src: the command layer. New calls are refused with `ShutdownInProgress`
once teardown has started. -/
def call_tool_guarded (st : AppStateM) (name : String) (p : CallToolRequestParam) :
    AppStateM × Except McpError CallToolResult :=
  if st.mcp_shutdown_in_progress then (st, .error .ShutdownInProgress)
  else (st, call_tool_named st.mcp_servers name p)

/-- `ProviderCustomHeader` from state.rs. -/
structure ProviderCustomHeader where
  header : String
  value : String
deriving DecidableEq, Repr

/-- `ProviderConfig` from state.rs. -/
structure ProviderConfig where
  provider : String
  api_key : Option String
  base_url : Option String
  custom_headers : List ProviderCustomHeader
  models : List String
deriving DecidableEq, Repr

/-- The field tuple of a provider configuration. -/
def ProviderConfig.toTuple (c : ProviderConfig) :
    String × Option String × Option String × List ProviderCustomHeader × List String :=
  (c.provider, c.api_key, c.base_url, c.custom_headers, c.models)

/-- Rebuild a provider configuration from its field tuple. -/
def ProviderConfig.ofTuple :
    String × Option String × Option String × List ProviderCustomHeader × List String →
      ProviderConfig
  | (p, k, b, hs, ms) => ⟨p, k, b, hs, ms⟩

/-- `AxFabricServiceConfig` from state.rs: the four backend-service URLs. -/
structure AxFabricServiceConfig where
  api_service_url : String
  retrieval_service_url : String
  agents_service_url : String
  akidb_url : String
deriving DecidableEq, Repr

/-- `impl Default for AxFabricServiceConfig` from state.rs. -/
def AxFabricServiceConfig.defaultConfig : AxFabricServiceConfig :=
  { api_service_url := "http://127.0.0.1:8000"
    retrieval_service_url := "http://127.0.0.1:8001"
    agents_service_url := "http://127.0.0.1:8002"
    akidb_url := "http://127.0.0.1:8003" }

/-- A concrete healthy connection, used to instantiate theorems. -/
def demoService : RunningService :=
  { list_all_tools := .ok [⟨1⟩], call_tool := fun p => .ok ⟨p.code + 1⟩ }

/-- A concrete failing connection, used to instantiate theorems. -/
def failingService : RunningService :=
  { list_all_tools := .error ⟨7⟩, call_tool := fun _ => .error ⟨9⟩ }

theorem lookupAssoc_mapAssoc {β : Type} (f : β → β) (m : List (String × β)) (k : String) :
    lookupAssoc (mapAssoc f m k) k = (lookupAssoc m k).map f := by
  induction m with
  | nil => rfl
  | cons hd tl ih =>
      obtain ⟨k2, v⟩ := hd
      by_cases hk : k2 = k <;> simp [mapAssoc, lookupAssoc, hk, ih]

theorem mapAssoc_fire_idem (m : List (String × CancellationSignal)) (k : String) :
    mapAssoc fireSignal (mapAssoc fireSignal m k) k = mapAssoc fireSignal m k := by
  induction m with
  | nil => rfl
  | cons hd tl ih =>
      obtain ⟨k2, v⟩ := hd
      by_cases hk : k2 = k <;> simp [mapAssoc, hk, ih, fireSignal]

theorem eraseAssoc_of_lookup_none {β : Type} (m : List (String × β)) (k : String)
    (h : lookupAssoc m k = none) : eraseAssoc m k = m := by
  induction m with
  | nil => rfl
  | cons hd tl ih =>
      obtain ⟨k2, v⟩ := hd
      by_cases hk : k2 = k
      · simp [lookupAssoc, hk] at h
      · simp [lookupAssoc, hk] at h
        simp [eraseAssoc, hk, ih h]

theorem triggerN_of_flag (s : ShutdownState) (hs : s.flag = true) (n : Nat) :
    triggerN s n = (s, List.replicate n true) := by
  induction n with
  | zero => rfl
  | succ m ih => simp [triggerN, triggerShutdown, hs, ih, List.replicate_succ]

/-- Claim C1: for every connection and call parameter, `list_all_tools` and
`call_tool` behave identically on the `NoInit` and `WithInit` variants: both
dispatch to the same-named method of the wrapped connection, so given equal
underlying connection behavior the two variant embeddings are equal. -/
theorem variant_dispatch_equal (s : RunningService) (p : CallToolRequestParam) :
    (RunningServiceEnum.NoInit s).list_all_tools
        = (RunningServiceEnum.WithInit s).list_all_tools ∧
      (RunningServiceEnum.NoInit s).call_tool p
        = (RunningServiceEnum.WithInit s).call_tool p :=
  ⟨rfl, rfl⟩

/-- Claim C2: whenever the underlying connection returns a `ServiceError` from
`list_all_tools` or `call_tool`, the error the caller of the name-indexed
dispatch receives is that error unchanged, tagged with the originating
service name. -/
theorem service_error_tagged_with_name (servers : McpServerMap) (name : String)
    (h : RunningServiceEnum) (p : CallToolRequestParam) (e1 e2 : ServiceError)
    (hlook : lookupAssoc servers name = some h)
    (hl : h.list_all_tools = .error e1) (hc : h.call_tool p = .error e2) :
    list_tools servers name = .error (.Service name e1) ∧
      call_tool_named servers name p = .error (.Service name e2) := by
  constructor
  · simp [list_tools, hlook, hl]
  · simp [call_tool_named, hlook, hc]

/-- Witness for C2 at a concrete failing service. -/
theorem service_error_tagged_with_name_witness :
    list_tools [("svc", .NoInit failingService)] "svc"
        = .error (.Service "svc" ⟨7⟩) ∧
      call_tool_named [("svc", .NoInit failingService)] "svc" ⟨3⟩
        = .error (.Service "svc" ⟨9⟩) :=
  service_error_tagged_with_name [("svc", .NoInit failingService)] "svc"
    (.NoInit failingService) ⟨3⟩ ⟨7⟩ ⟨9⟩ rfl rfl rfl

/-- Claim C3: the initialization-variant tag of a handle is fixed: after any
execution of `list_all_tools` or `call_tool` (state-passing form of the Rust
`&self` methods), the handle's variant tag is unchanged. -/
theorem variant_tag_fixed (h : RunningServiceEnum) (p : CallToolRequestParam) :
    h.list_all_tools_step.1.tag = h.tag ∧ (h.call_tool_step p).1.tag = h.tag :=
  ⟨rfl, rfl⟩

/-- Claim C4: `cancel(call_id)` fails with `NotFound` when no entry exists and
then has no side effect; otherwise it returns success, the entry's signal is
fired, and cancelling again is a no-op on the registry rather than an error. -/
theorem cancel_spec (reg : CancellationRegistry) (callId : String) :
    (lookupAssoc reg.entries callId = none →
        cancel reg callId = (reg, .error (.NotFound callId))) ∧
      ∀ s : CancellationSignal, lookupAssoc reg.entries callId = some s →
        (cancel reg callId).2 = .ok () ∧
          lookupAssoc (cancel reg callId).1.entries callId = some (fireSignal s) ∧
          (fireSignal s).fired = true ∧
          cancel (cancel reg callId).1 callId = ((cancel reg callId).1, .ok ()) := by
  constructor
  · intro hnone
    simp [cancel, hnone]
  · intro s hsome
    refine ⟨by simp [cancel, hsome], ?_, rfl, ?_⟩
    · simp [cancel, hsome, lookupAssoc_mapAssoc]
    · have h1 : (cancel reg callId).1 = ⟨mapAssoc fireSignal reg.entries callId⟩ := by
        simp [cancel, hsome]
      have h2 : lookupAssoc (mapAssoc fireSignal reg.entries callId) callId
          = some (fireSignal s) := by
        simp [lookupAssoc_mapAssoc, hsome]
      rw [h1]
      simp [cancel, h2, mapAssoc_fire_idem]

/-- Witness for C4: an absent id yields `NotFound` on the empty registry, and
cancelling a present id succeeds with the signal fired. -/
theorem cancel_spec_witness :
    cancel ⟨[]⟩ "a" = (⟨[]⟩, .error (.NotFound "a")) ∧
      (cancel ⟨[("b", ⟨false⟩)]⟩ "b").2 = .ok () ∧
        lookupAssoc (cancel ⟨[("b", ⟨false⟩)]⟩ "b").1.entries "b"
            = some (fireSignal ⟨false⟩) ∧
          (fireSignal (⟨false⟩ : CancellationSignal)).fired = true ∧
          cancel (cancel ⟨[("b", ⟨false⟩)]⟩ "b").1 "b"
            = ((cancel ⟨[("b", ⟨false⟩)]⟩ "b").1, .ok ()) :=
  ⟨(cancel_spec ⟨[]⟩ "a").1 rfl, (cancel_spec ⟨[("b", ⟨false⟩)]⟩ "b").2 ⟨false⟩ rfl⟩

/-- Claim C5: for every invocation of `call_tool_cancellable` with a fresh
call id, an entry keyed by the call id is present exactly while the call is in
flight: it is in the registry after insertion and before resolution, and on
every exit path (success, error, cancellation, timeout) the final registry is
the initial one, so no entry is leaked. -/
theorem cancellation_entry_not_leaked (reg : CancellationRegistry) (name : String)
    (callId : String) (outcome : CallOutcome)
    (hfresh : lookupAssoc reg.entries callId = none) :
    lookupAssoc (call_tool_cancellable reg name callId outcome).inFlight.entries callId
        = some ⟨false⟩ ∧
      lookupAssoc (call_tool_cancellable reg name callId outcome).final.entries callId
          = none ∧
        (call_tool_cancellable reg name callId outcome).final = reg := by
  refine ⟨by simp [call_tool_cancellable, lookupAssoc], ?_, ?_⟩
  · simp [call_tool_cancellable, eraseAssoc, eraseAssoc_of_lookup_none reg.entries callId hfresh,
      hfresh]
  · simp [call_tool_cancellable, eraseAssoc, eraseAssoc_of_lookup_none reg.entries callId hfresh]

/-- Witness for C5 at a concrete registry and a cancelled outcome. -/
theorem cancellation_entry_not_leaked_witness :
    lookupAssoc (call_tool_cancellable ⟨[("x", ⟨true⟩)]⟩ "svc" "c1" .cancelled).inFlight.entries
        "c1" = some ⟨false⟩ ∧
      lookupAssoc (call_tool_cancellable ⟨[("x", ⟨true⟩)]⟩ "svc" "c1" .cancelled).final.entries
          "c1" = none ∧
        (call_tool_cancellable ⟨[("x", ⟨true⟩)]⟩ "svc" "c1" .cancelled).final
          = ⟨[("x", ⟨true⟩)]⟩ :=
  cancellation_entry_not_leaked ⟨[("x", ⟨true⟩)]⟩ "svc" "c1" .cancelled rfl

/-- Claim C6: the shutdown flag goes false to true at most once and never
back: triggering shutdown N ≥ 1 times from the initial state executes teardown
exactly once and every caller returns successfully, and any caller observing
the flag already true leaves the state unchanged. -/
theorem shutdown_idempotent (n : Nat) (hn : 1 ≤ n) :
    triggerN ⟨false, 0⟩ n = (⟨true, 1⟩, List.replicate n true) ∧
      ∀ s : ShutdownState, s.flag = true → triggerShutdown s = (s, true) := by
  constructor
  · obtain ⟨m, rfl⟩ : ∃ m, n = m + 1 := ⟨n - 1, (Nat.succ_pred_eq_of_pos hn).symm⟩
    simp [triggerN, triggerShutdown, triggerN_of_flag ⟨true, 1⟩ rfl m, List.replicate_succ]
  · intro s hs
    simp [triggerShutdown, hs]

/-- Witness for C6 at three triggers. -/
theorem shutdown_idempotent_witness :
    triggerN ⟨false, 0⟩ 3 = (⟨true, 1⟩, List.replicate 3 true) :=
  (shutdown_idempotent 3 (by decide)).1

/-- Claim C7: registering a name already present in the registry fails with
`AlreadyRunning` and mutates nothing: the whole map, and in particular the
existing entry for that name, is unchanged. -/
theorem register_already_running (servers : McpServerMap) (name : String)
    (h0 h : RunningServiceEnum) (hlook : lookupAssoc servers name = some h0) :
    register servers name h = (servers, .error (.AlreadyRunning name)) ∧
      lookupAssoc (register servers name h).1 name = some h0 := by
  constructor
  · simp [register, hlook]
  · simp [register, hlook]

/-- Witness for C7: re-registering a present name at a concrete registry. -/
theorem register_already_running_witness :
    register [("svc", .NoInit demoService)] "svc" (.WithInit demoService)
        = ([("svc", .NoInit demoService)], .error (.AlreadyRunning "svc")) ∧
      lookupAssoc
          (register [("svc", .NoInit demoService)] "svc" (.WithInit demoService)).1 "svc"
        = some (.NoInit demoService) :=
  register_already_running [("svc", .NoInit demoService)] "svc"
    (.NoInit demoService) (.WithInit demoService) rfl

/-- Claim C8: after shutdown completes, the service registry, the cancellation
registry and the process-id table are all empty, and every subsequent register
or call attempt fails with `ShutdownInProgress` (and mutates nothing). -/
theorem shutdown_clears_and_refuses (st : AppStateM)
    (hrun : st.mcp_shutdown_in_progress = false) :
    (shutdown st).mcp_servers = [] ∧
      (shutdown st).tool_call_cancellations = [] ∧
      (shutdown st).mcp_server_pids = [] ∧
      (∀ (name : String) (hdl : RunningServiceEnum),
        registerGuarded (shutdown st) name hdl
          = (shutdown st, .error .ShutdownInProgress)) ∧
      ∀ (name : String) (p : CallToolRequestParam),
        call_tool_guarded (shutdown st) name p
          = (shutdown st, .error .ShutdownInProgress) := by
  refine ⟨by simp [shutdown, hrun], by simp [shutdown, hrun], by simp [shutdown, hrun], ?_, ?_⟩
  · intro name hdl
    simp [shutdown, hrun, registerGuarded]
  · intro name p
    simp [shutdown, hrun, call_tool_guarded]

/-- Witness for C8 at a concrete populated state. -/
theorem shutdown_clears_and_refuses_witness :
    (shutdown ⟨[("svc", .NoInit demoService)], [("c1", ⟨false⟩)], [("svc", 42)], false⟩).mcp_servers
        = [] ∧
      (shutdown ⟨[("svc", .NoInit demoService)], [("c1", ⟨false⟩)], [("svc", 42)],
            false⟩).tool_call_cancellations = [] ∧
      (shutdown ⟨[("svc", .NoInit demoService)], [("c1", ⟨false⟩)], [("svc", 42)],
            false⟩).mcp_server_pids = [] ∧
      (∀ (name : String) (hdl : RunningServiceEnum),
        registerGuarded
            (shutdown ⟨[("svc", .NoInit demoService)], [("c1", ⟨false⟩)], [("svc", 42)], false⟩)
            name hdl
          = (shutdown ⟨[("svc", .NoInit demoService)], [("c1", ⟨false⟩)], [("svc", 42)], false⟩,
              .error .ShutdownInProgress)) ∧
      ∀ (name : String) (p : CallToolRequestParam),
        call_tool_guarded
            (shutdown ⟨[("svc", .NoInit demoService)], [("c1", ⟨false⟩)], [("svc", 42)], false⟩)
            name p
          = (shutdown ⟨[("svc", .NoInit demoService)], [("c1", ⟨false⟩)], [("svc", 42)], false⟩,
              .error .ShutdownInProgress) :=
  shutdown_clears_and_refuses
    ⟨[("svc", .NoInit demoService)], [("c1", ⟨false⟩)], [("svc", 42)], false⟩ rfl

/-- Claim C9: a provider configuration consists of exactly a provider name, an
optional api_key, an optional base_url, a list of header/value pairs and a
list of model names: the record is in bijection with that field tuple, api_key
and base_url being the only optional components. -/
theorem provider_config_shape :
    (∀ c : ProviderConfig, ProviderConfig.ofTuple c.toTuple = c) ∧
      ∀ t : String × Option String × Option String × List ProviderCustomHeader × List String,
        (ProviderConfig.ofTuple t).toTuple = t := by
  constructor
  · intro c
    rfl
  · intro t
    obtain ⟨p, k, b, hs, ms⟩ := t
    rfl

/-- Claim C10: the default `AxFabricServiceConfig` assigns each backend service
a 127.0.0.1 base URL with its own port — 8000 for the API service, 8001 for
retrieval, 8002 for agents, 8003 for AkiDB — and the four URLs are pairwise
distinct. -/
theorem default_service_urls :
    AxFabricServiceConfig.defaultConfig.api_service_url = "http://127.0.0.1:8000" ∧
      AxFabricServiceConfig.defaultConfig.retrieval_service_url = "http://127.0.0.1:8001" ∧
      AxFabricServiceConfig.defaultConfig.agents_service_url = "http://127.0.0.1:8002" ∧
      AxFabricServiceConfig.defaultConfig.akidb_url = "http://127.0.0.1:8003" ∧
      AxFabricServiceConfig.defaultConfig.api_service_url
          ≠ AxFabricServiceConfig.defaultConfig.retrieval_service_url ∧
      AxFabricServiceConfig.defaultConfig.api_service_url
          ≠ AxFabricServiceConfig.defaultConfig.agents_service_url ∧
      AxFabricServiceConfig.defaultConfig.api_service_url
          ≠ AxFabricServiceConfig.defaultConfig.akidb_url ∧
      AxFabricServiceConfig.defaultConfig.retrieval_service_url
          ≠ AxFabricServiceConfig.defaultConfig.agents_service_url ∧
      AxFabricServiceConfig.defaultConfig.retrieval_service_url
          ≠ AxFabricServiceConfig.defaultConfig.akidb_url ∧
      AxFabricServiceConfig.defaultConfig.agents_service_url
          ≠ AxFabricServiceConfig.defaultConfig.akidb_url := by
  refine ⟨rfl, rfl, rfl, rfl, ?_, ?_, ?_, ?_, ?_, ?_⟩ <;> decide

end AxFabric
